import Mathlib

/-!
# Verification of `src/a11y.js`

A shallow embedding of the accessibility helpers in `src/a11y.js` and proofs
about them.  The DOM is modelled as a finite tree of element and text nodes;
attributes are association lists.  JavaScript string truthiness (`""` and
`null` are falsy) is modelled by `truthy` on `Option String`.  Each mutating
helper is modelled by explicit state passing: it takes the element and returns
the updated element.  `document.getElementById` is modelled against an ambient
`doc : Node` parameter, following the DOM specification: a `null` or empty id
resolves to no element, otherwise the first element in document order whose
`id` attribute equals the string is returned.
-/

namespace A11y

/-- A DOM node: an element with a tag name (as exposed by `tagName`, i.e.
uppercase for HTML elements), an attribute list, and children; or a text
node. -/
inductive Node where
  | elem : String → List (String × String) → List Node → Node
  | text : String → Node

/-- JavaScript truthiness of the result of `getAttribute`: `null` (absent)
and the empty string are falsy. -/
def truthy : Option String → Bool
  | some s => s ≠ ""
  | none => false

/-- JS `String.prototype.trim()`: strip leading and trailing whitespace.
Modelled executably over the string's character list so that concrete
instances evaluate inside the kernel. -/
def jsTrim (s : String) : String :=
  ⟨((s.data.dropWhile Char.isWhitespace).reverse.dropWhile Char.isWhitespace).reverse⟩

/-- `element.getAttribute(name)`: the first binding of `name`, or `null`
(here `none`) when absent.  On a non-element node there are no attributes. -/
def getAttr (el : Node) (name : String) : Option String :=
  match el with
  | .elem _ attrs _ => attrs.lookup name
  | .text _ => none

/-- Update an attribute list as `setAttribute` does: change the value in
place when the name is bound, append the binding otherwise. -/
def setAttrList : List (String × String) → String → String → List (String × String)
  | [], k, v => [(k, v)]
  | (k', v') :: rest, k, v =>
      if k' == k then (k, v) :: rest else (k', v') :: setAttrList rest k v

/-- `element.setAttribute(k, v)`.  A text node has no attributes and is
unchanged. -/
def setAttr (el : Node) (k v : String) : Node :=
  match el with
  | .elem t attrs ch => .elem t (setAttrList attrs k v) ch
  | .text s => .text s

/-- `element.removeAttribute(k)`. -/
def removeAttr (el : Node) (k : String) : Node :=
  match el with
  | .elem t attrs ch => .elem t (attrs.filter (fun p => p.1 != k)) ch
  | .text s => .text s

/-- `element.tagName` (empty for a text node, which has none). -/
def tagName : Node → String
  | .elem t _ _ => t
  | .text _ => ""

mutual

/-- `node.textContent`: the concatenation of all descendant text node data in
tree order. -/
def textContent : Node → String
  | .text s => s
  | .elem _ _ ch => textContentList ch

/-- `textContent` of a list of siblings, concatenated in order. -/
def textContentList : List Node → String
  | [] => ""
  | c :: cs => textContent c ++ textContentList cs

end

/-- `element.textContent = s`: replaces all children with a single text
node. -/
def setTextContent (el : Node) (s : String) : Node :=
  match el with
  | .elem t attrs _ => .elem t attrs [.text s]
  | .text _ => .text s

mutual

/-- First element (in document order, the node itself included) whose `id`
attribute equals `i`. -/
def findById : Node → String → Option Node
  | .text _, _ => none
  | .elem t attrs ch, i =>
      if getAttr (.elem t attrs ch) "id" = some i then some (.elem t attrs ch)
      else findByIdList ch i

/-- `findById` over a list of siblings, first match wins. -/
def findByIdList : List Node → String → Option Node
  | [], _ => none
  | c :: cs, i =>
      match findById c i with
      | some r => some r
      | none => findByIdList cs i

end

/-- `document.getElementById(id)` where `id` is the (nullable) result of a
`getAttribute` call.  WebIDL coerces a `null` argument to the string
`"null"`, so an absent attribute looks up the id `"null"` and can find an
element that carries `id="null"`.  An empty string resolves to no element:
per the DOM specification an element whose `id` attribute is the empty
string has no ID. -/
def getElementById (doc : Node) (id : Option String) : Option Node :=
  match id with
  | none => findById doc "null"
  | some i => if i = "" then none else findById doc i

/-- Does the node match the CSS selector `[aria-label], [aria-labelledby]`,
i.e. is it an element carrying either attribute (even with empty value)? -/
def hasLabelAttr (el : Node) : Bool :=
  (getAttr el "aria-label").isSome || (getAttr el "aria-labelledby").isSome

mutual

/-- `getA11yLabel(element)` from `src/a11y.js`, resolved against the ambient
document `doc`:
1. a truthy (non-empty) `aria-label` is returned verbatim;
2. else, if `document.getElementById(element.getAttribute("aria-labelledby"))`
   finds an element, its trimmed `textContent` is returned;
3. else the element is cloned, every matching descendant of the clone (CSS
   `[aria-label], [aria-labelledby]`, static list in document order) has its
   `textContent` replaced by its own recursively resolved label, and the
   clone's trimmed `textContent` is returned.  Since assigning `textContent`
   to an outer matched element detaches all its descendants (so later
   assignments to inner matched elements no longer contribute to the clone),
   the clone's final `textContent` is `replacedText`, which substitutes the
   label of each outermost matched descendant. -/
def getA11yLabel (doc : Node) (el : Node) : String :=
  if truthy (getAttr el "aria-label") then (getAttr el "aria-label").getD ""
  else
    match getElementById doc (getAttr el "aria-labelledby") with
    | some ref => jsTrim (textContent ref)
    | none => jsTrim (replacedText doc el)
termination_by 3 * sizeOf el + 1

/-- `textContent` of the clone of `el` after the `forEach` of step 3 of
`getA11yLabel`: the root itself is not in the `querySelectorAll` result, so
its children are collapsed by `replacedTextNode`. -/
def replacedText (doc : Node) (el : Node) : String :=
  match el with
  | .text s => s
  | .elem _ _ ch => replacedTextList doc ch
termination_by 3 * sizeOf el

/-- `replacedTextNode` over a list of siblings, concatenated. -/
def replacedTextList (doc : Node) : List Node → String
  | [] => ""
  | c :: cs => replacedTextNode doc c ++ replacedTextList doc cs
termination_by l => 3 * sizeOf l

/-- Contribution of one descendant of the clone to the final `textContent`:
a matched element (carrying `aria-label` or `aria-labelledby`) contributes its
own resolved label, anything else contributes its children's collapsed
text. -/
def replacedTextNode (doc : Node) : Node → String
  | .text s => s
  | .elem t attrs ch =>
      if hasLabelAttr (.elem t attrs ch) then getA11yLabel doc (.elem t attrs ch)
      else replacedTextList doc ch
termination_by n => 3 * sizeOf n + 2

end

/-- Is the node an element (as opposed to a text node)? -/
def isElem : Node → Bool
  | .elem _ _ _ => true
  | .text _ => false

mutual

/-- All element descendants of a node in document order, the node itself
excluded — the universe `querySelectorAll` filters. -/
def elementDescendants : Node → List Node
  | .text _ => []
  | .elem _ _ ch => elementDescendantsList ch

/-- Element descendants of a list of sibling subtrees, roots included, in
document order: each sibling that is an element, then its own element
descendants, then the later siblings. -/
def elementDescendantsList : List Node → List Node
  | [] => []
  | c :: cs =>
      (if isElem c then [c] else []) ++ elementDescendants c ++ elementDescendantsList cs

end

/-- Does the element match the selector `h1, h2, h3, h4, h5, h6`?  HTML
elements expose an uppercase `tagName`. -/
def isHeadline (n : Node) : Bool :=
  ["H1", "H2", "H3", "H4", "H5", "H6"].contains (tagName n)

/-- `getFirstHeadline(container)` from `src/a11y.js`: the first heading
descendant with truthy trimmed `textContent`; returns that trimmed text or
`null`. -/
def getFirstHeadline (container : Node) : Option String :=
  let headlines := (elementDescendants container).filter isHeadline
  match headlines.find? (fun h => jsTrim (textContent h) != "") with
  | some h => some (jsTrim (textContent h))
  | none => none

/-- `addIdToElement(element)` from `src/a11y.js`.  `crypto.randomUUID()` is
modelled by the `freshId` parameter (the host guarantees a UUID, a non-empty
string).  `element.id` reflects the `id` attribute and is `""` when the
attribute is absent, so the guard `if (element.id)` is JS truthiness of the
attribute value. -/
def addIdToElement (element : Node) (freshId : String) : Node :=
  if truthy (getAttr element "id") then element
  else setAttr element "id" freshId

/-- The value of `const key = e.key !== undefined ? e.key : e.keyCode;` — a
string, a number, or `undefined` when both fields are missing. -/
inductive KeyVal where
  | str : String → KeyVal
  | num : Int → KeyVal
  | undefinedVal : KeyVal
deriving DecidableEq

/-- A keyboard event as the handler reads it: the modern `key` name (absent
on older event shapes) and the legacy numeric `keyCode` (absent on modern
shapes). -/
structure KeyEvent where
  key : Option String
  keyCode : Option Int
deriving DecidableEq

/-- `e.key !== undefined ? e.key : e.keyCode`. -/
def eventKey (e : KeyEvent) : KeyVal :=
  match e.key with
  | some s => .str s
  | none =>
      match e.keyCode with
      | some n => .num n
      | none => .undefinedVal

/-- The guard of the keydown listener:
`key === "Enter" || key === 13 || ["Spacebar", " "].indexOf(key) >= 0 || key === 32`.
JS `===` and `indexOf` never equate a string with a number, so the checks
translate componentwise on `KeyVal`. -/
def isActivationKey (e : KeyEvent) : Bool :=
  let key := eventKey e
  key == KeyVal.str "Enter" || key == KeyVal.num 13 ||
    [KeyVal.str "Spacebar", KeyVal.str " "].contains key || key == KeyVal.num 32

/-- How one run of the keydown listener activates the element. -/
inductive Activation where
  | nativeClick : Activation
  | syntheticClick : Activation
deriving DecidableEq

/-- Observable outcome of one run of the keydown listener: whether
`e.preventDefault()` was called and which activations were triggered. -/
structure HandlerResult where
  preventedDefault : Bool
  activations : List Activation
deriving DecidableEq

/-- One run of the keydown listener registered by `createA11yButton`.
`hasNativeClick` models `typeof element.click === "function"`, evaluated at
event time: if true the native click runs, otherwise a bubbling synthetic
click event is dispatched. -/
def a11yKeydownHandler (hasNativeClick : Bool) (e : KeyEvent) : HandlerResult :=
  if isActivationKey e then
    { preventedDefault := true
      activations := [if hasNativeClick then .nativeClick else .syntheticClick] }
  else
    { preventedDefault := false, activations := [] }

/-- An element together with the number of copies of the `createA11yButton`
keydown listener registered on it (`addEventListener` with a fresh closure
each call never deduplicates). -/
structure ElementState where
  node : Node
  keydownHandlerCount : Nat

/-- `createA11yButton(element, { role })` from `src/a11y.js`: a native
`<button>` is returned untouched with no listener added; otherwise `role` is
set only when the current `role` attribute is falsy, `tabindex="0"` is set
unconditionally, and one more keydown listener is registered. -/
def createA11yButton (st : ElementState) (role : String) : ElementState :=
  if tagName st.node == "BUTTON" then st
  else
    let node :=
      if truthy (getAttr st.node "role") then st.node
      else setAttr st.node "role" role
    let node := setAttr node "tabindex" "0"
    { node := node, keydownHandlerCount := st.keydownHandlerCount + 1 }

/-- Dispatching one keydown event to the element: every registered copy of
the listener runs on the same event. -/
def dispatchKeydown (st : ElementState) (hasNativeClick : Bool) (e : KeyEvent) :
    List HandlerResult :=
  List.replicate st.keydownHandlerCount (a11yKeydownHandler hasNativeClick e)

/-- Total number of click activations produced by a list of listener runs. -/
def totalActivations (rs : List HandlerResult) : Nat :=
  (rs.map (fun r => r.activations.length)).sum

/-- `replaceAriaLabelledByWithAriaLabel(element)` from `src/a11y.js`: resolve
`element.getAttribute("aria-labelledby")` in the document; when nothing is
found return the element unchanged, otherwise set `aria-label` to the
referenced element's trimmed `textContent` and remove `aria-labelledby`. -/
def replaceAriaLabelledByWithAriaLabel (doc el : Node) : Node :=
  match getElementById doc (getAttr el "aria-labelledby") with
  | none => el
  | some ref =>
      removeAttr (setAttr el "aria-label" (jsTrim (textContent ref))) "aria-labelledby"

/-- `setModalA11yAttributes(element)` from `src/a11y.js`: set `role="dialog"`
when the `role` attribute is falsy; always set `aria-modal="true"`; when a
headline is found and both `aria-label` and `aria-labelledby` are falsy, set
`aria-label` to the headline text and stop; otherwise, when `aria-labelledby`
is truthy, run the labelled-by normalizer. -/
def setModalA11yAttributes (doc el : Node) : Node :=
  let el := if truthy (getAttr el "role") then el else setAttr el "role" "dialog"
  let el := setAttr el "aria-modal" "true"
  let modalHeadline := getFirstHeadline el
  if truthy modalHeadline && !truthy (getAttr el "aria-label") &&
      !truthy (getAttr el "aria-labelledby") then
    setAttr el "aria-label" (modalHeadline.getD "")
  else if truthy (getAttr el "aria-labelledby") then
    replaceAriaLabelledByWithAriaLabel doc el
  else
    el

/-! ## Attribute-list lemmas -/

theorem lookup_setAttrList_self (a : List (String × String)) (k v : String) :
    (setAttrList a k v).lookup k = some v := by
  induction a with
  | nil => simp [setAttrList]
  | cons p rest ih =>
      obtain ⟨k', v'⟩ := p
      by_cases h : k' = k
      · simp [setAttrList, h]
      · simp [setAttrList, beq_false_of_ne h, List.lookup_cons,
          beq_false_of_ne (Ne.symm h), ih]

theorem lookup_setAttrList_ne (a : List (String × String)) (k v k' : String)
    (h : k' ≠ k) : (setAttrList a k v).lookup k' = a.lookup k' := by
  induction a with
  | nil => simp [setAttrList, List.lookup_cons, beq_false_of_ne h]
  | cons p rest ih =>
      obtain ⟨k₀, v₀⟩ := p
      by_cases h0 : k₀ = k
      · subst h0
        simp [setAttrList, List.lookup_cons, beq_false_of_ne h]
      · simp only [setAttrList, beq_false_of_ne h0, if_neg]
        cases hk : (k' == k₀) <;> simp [List.lookup_cons, hk, ih]

theorem lookup_removeList_self (a : List (String × String)) (k : String) :
    (a.filter (fun p => p.1 != k)).lookup k = none := by
  induction a with
  | nil => simp
  | cons p rest ih =>
      obtain ⟨k₀, v₀⟩ := p
      by_cases h0 : k₀ = k
      · simp [List.filter_cons, h0, ih]
      · simp [List.filter_cons, bne_iff_ne, h0, List.lookup_cons,
          beq_false_of_ne (Ne.symm h0), ih]

theorem lookup_removeList_ne (a : List (String × String)) (k k' : String)
    (h : k' ≠ k) : (a.filter (fun p => p.1 != k)).lookup k' = a.lookup k' := by
  induction a with
  | nil => simp
  | cons p rest ih =>
      obtain ⟨k₀, v₀⟩ := p
      by_cases h0 : k₀ = k
      · subst h0
        simp [List.filter_cons, List.lookup_cons, beq_false_of_ne h, ih]
      · have hb : ((k₀, v₀).1 != k) = true := by simp [bne_iff_ne, h0]
        simp only [List.filter_cons, hb, if_pos]
        cases hk : (k' == k₀) <;> simp [List.lookup_cons, hk, ih]

theorem getAttr_setAttr_self (t : String) (a : List (String × String))
    (ch : List Node) (k v : String) :
    getAttr (setAttr (.elem t a ch) k v) k = some v := by
  simp [getAttr, setAttr, lookup_setAttrList_self]

theorem getAttr_setAttr_ne (t : String) (a : List (String × String))
    (ch : List Node) (k v k' : String) (h : k' ≠ k) :
    getAttr (setAttr (.elem t a ch) k v) k' = getAttr (.elem t a ch) k' := by
  simp [getAttr, setAttr, lookup_setAttrList_ne _ _ _ _ h]

theorem getAttr_removeAttr_self (t : String) (a : List (String × String))
    (ch : List Node) (k : String) :
    getAttr (removeAttr (.elem t a ch) k) k = none := by
  simp [getAttr, removeAttr, lookup_removeList_self]

theorem getAttr_removeAttr_ne (t : String) (a : List (String × String))
    (ch : List Node) (k k' : String) (h : k' ≠ k) :
    getAttr (removeAttr (.elem t a ch) k) k' = getAttr (.elem t a ch) k' := by
  simp [getAttr, removeAttr, lookup_removeList_ne _ _ _ h]

/-! ## Claims about the label resolver -/

/-- C2: for every element whose `aria-label` attribute is present and
non-empty with value `v`, `getA11yLabel` returns exactly `v` verbatim — no
trimming, no recursion into descendants — regardless of the element's other
attributes, its `aria-labelledby`, its descendants, and the document. -/
theorem getA11yLabel_explicit_label (doc el : Node) (v : String)
    (hv : getAttr el "aria-label" = some v) (hne : v ≠ "") :
    getA11yLabel doc el = v := by
  have ht : truthy (some v) = true := by simp [truthy, hne]
  simp [getA11yLabel, hv, ht]

/-- Witness for C2: an element carrying `aria-label="V"`, an
`aria-labelledby`, and descendant text keeps the label `"V"`. -/
theorem getA11yLabel_explicit_label_w :
    getA11yLabel (.elem "BODY" [] [.elem "SPAN" [("id", "x")] [.text "ref"]])
      (.elem "DIV" [("aria-label", "V"), ("aria-labelledby", "x")] [.text "junk"]) = "V" :=
  getA11yLabel_explicit_label _ _ "V" rfl (by decide)

/-- C3: for every element with no non-empty `aria-label` whose
`aria-labelledby` names an id that resolves to an element of the document,
`getA11yLabel` returns the referenced element's literal text content with
leading and trailing whitespace trimmed (not its recursively resolved
label). -/
theorem getA11yLabel_labelledby_reference (doc el ref : Node) (idv : String)
    (hl : truthy (getAttr el "aria-label") = false)
    (hid : getAttr el "aria-labelledby" = some idv)
    (href : getElementById doc (some idv) = some ref) :
    getA11yLabel doc el = jsTrim (textContent ref) := by
  simp [getA11yLabel, hl, hid, href]

/-- Witness for C3: `aria-labelledby="x"` where element `x` has text content
`"  Hello  "` resolves to `"Hello"`. -/
theorem getA11yLabel_labelledby_reference_w :
    getA11yLabel (.elem "BODY" [] [.elem "SPAN" [("id", "x")] [.text "  Hello  "]])
      (.elem "DIV" [("aria-labelledby", "x")] [.text "junk"]) = "Hello" := by
  have h := getA11yLabel_labelledby_reference
    (.elem "BODY" [] [.elem "SPAN" [("id", "x")] [.text "  Hello  "]])
    (.elem "DIV" [("aria-labelledby", "x")] [.text "junk"])
    (.elem "SPAN" [("id", "x")] [.text "  Hello  "]) "x" (by decide) rfl rfl
  rw [h]; decide

/-- C4 counterexample: the original claim also covers elements whose
`aria-labelledby` is absent, asserting the clone-collapse result on every
document.  But `document.getElementById(null)` coerces `null` to the string
`"null"`, so in a document containing `<span id="null"> Gotcha </span>` an
element with no label attributes at all returns that element's trimmed text
`"Gotcha"`, not its clone-collapse text `"Hello"`. -/
theorem getA11yLabel_null_id_cex :
    getAttr (.elem "DIV" [] [.text "Hello"]) "aria-label" = none ∧
    getAttr (.elem "DIV" [] [.text "Hello"]) "aria-labelledby" = none ∧
    getA11yLabel (.elem "BODY" [] [.elem "SPAN" [("id", "null")] [.text " Gotcha "]])
        (.elem "DIV" [] [.text "Hello"]) = "Gotcha" ∧
    jsTrim (replacedText (.elem "BODY" [] [.elem "SPAN" [("id", "null")] [.text " Gotcha "]])
        (.elem "DIV" [] [.text "Hello"])) = "Hello" ∧
    getA11yLabel (.elem "BODY" [] [.elem "SPAN" [("id", "null")] [.text " Gotcha "]])
        (.elem "DIV" [] [.text "Hello"]) ≠
      jsTrim (replacedText (.elem "BODY" [] [.elem "SPAN" [("id", "null")] [.text " Gotcha "]])
        (.elem "DIV" [] [.text "Hello"])) := by
  have h1 : getA11yLabel (.elem "BODY" [] [.elem "SPAN" [("id", "null")] [.text " Gotcha "]])
      (.elem "DIV" [] [.text "Hello"]) = "Gotcha" := by
    simp [getA11yLabel, getAttr, truthy, getElementById, findById, findByIdList,
      textContent, textContentList, List.lookup]
    decide
  have h2 : jsTrim (replacedText (.elem "BODY" [] [.elem "SPAN" [("id", "null")] [.text " Gotcha "]])
      (.elem "DIV" [] [.text "Hello"])) = "Hello" := by
    simp [replacedText, replacedTextList, replacedTextNode]
    decide
  refine ⟨rfl, rfl, h1, h2, ?_⟩
  rw [h1, h2]
  decide

/-- C4 (amended): for every element with no non-empty `aria-label`, when the
lookup of its `aria-labelledby` value finds no element — an absent attribute
being coerced by `document.getElementById` to the string `"null"`, so an
absent attribute falls through only when the document has no element with
`id="null"`, while a present attribute naming a non-existent id falls through
without failing — `getA11yLabel` returns the trimmed collapsed text of the
cloned subtree (`replacedText`), in which every outermost descendant carrying
`aria-label` or `aria-labelledby` contributes its own recursively resolved
label (`replacedTextNode` equals `getA11yLabel` on such a descendant) instead
of its literal text. -/
theorem getA11yLabel_clone_collapse (doc el : Node)
    (hl : truthy (getAttr el "aria-label") = false)
    (hid : getElementById doc (getAttr el "aria-labelledby") = none) :
    getA11yLabel doc el = jsTrim (replacedText doc el) ∧
    ∀ t attrs ch, hasLabelAttr (.elem t attrs ch) = true →
      replacedTextNode doc (.elem t attrs ch) = getA11yLabel doc (.elem t attrs ch) := by
  constructor
  · simp [getA11yLabel, hl, hid]
  · intro t attrs ch hla
    simp [replacedTextNode, hla]

/-- Witness for C4: an element with text `"Hello "` followed by a
`<span aria-label="World">ignored</span>` resolves to `"Hello World"` — the
descendant's own label is substituted for its literal text. -/
theorem getA11yLabel_clone_collapse_w :
    getA11yLabel (.elem "BODY" [] [])
        (.elem "DIV" [] [.text "Hello ", .elem "SPAN" [("aria-label", "World")] [.text "ignored"]]) =
      jsTrim (replacedText (.elem "BODY" [] [])
        (.elem "DIV" [] [.text "Hello ", .elem "SPAN" [("aria-label", "World")] [.text "ignored"]])) ∧
    getA11yLabel (.elem "BODY" [] [])
        (.elem "DIV" [] [.text "Hello ", .elem "SPAN" [("aria-label", "World")] [.text "ignored"]]) =
      "Hello World" := by
  have h := (getA11yLabel_clone_collapse (.elem "BODY" [] [])
    (.elem "DIV" [] [.text "Hello ", .elem "SPAN" [("aria-label", "World")] [.text "ignored"]])
    (by decide) rfl).1
  refine ⟨h, ?_⟩
  rw [h]
  simp [replacedText, replacedTextList, replacedTextNode, getA11yLabel, hasLabelAttr,
    getAttr, truthy, getElementById, textContent, textContentList, List.lookup]
  decide

/-- C5: `getA11yLabel` terminates on every finite DOM tree — the embedding is
a total function, accepted by the termination checker with subtree size as
the measure, because every recursive call operates on a strict descendant of
the (cloned) element; in particular the `aria-labelledby` step never recurses,
so reference cycles cannot cause unbounded recursion.  The second conjunct
evaluates a document whose two elements name each other via
`aria-labelledby`. -/
theorem getA11yLabel_total :
    (∀ doc el : Node, ∃ s : String, getA11yLabel doc el = s) ∧
    getA11yLabel
      (.elem "BODY" [] [.elem "DIV" [("id", "a"), ("aria-labelledby", "b")] [.text "A"],
        .elem "DIV" [("id", "b"), ("aria-labelledby", "a")] [.text "B"]])
      (.elem "DIV" [("id", "a"), ("aria-labelledby", "b")] [.text "A"]) = "B" := by
  refine ⟨fun doc el => ⟨getA11yLabel doc el, rfl⟩, ?_⟩
  simp [getA11yLabel, getAttr, truthy, getElementById, findById, findByIdList,
    textContent, textContentList, List.lookup]
  decide

/-! ## Claims about the labelled-by normalizer -/

/-- C6: for every element with an `aria-labelledby` attribute: when the
referenced id resolves to a document element, the normalizer sets
`aria-label` to the referenced element's trimmed text content, removes
`aria-labelledby`, and touches no other attribute; when the reference does
not resolve, the element is returned completely unchanged. -/
theorem replaceAriaLabelledByWithAriaLabel_spec (doc : Node) (t : String)
    (a : List (String × String)) (ch : List Node) (idv : String)
    (hid : getAttr (.elem t a ch) "aria-labelledby" = some idv) :
    (∀ ref, getElementById doc (some idv) = some ref →
      getAttr (replaceAriaLabelledByWithAriaLabel doc (.elem t a ch)) "aria-label"
          = some (jsTrim (textContent ref)) ∧
      getAttr (replaceAriaLabelledByWithAriaLabel doc (.elem t a ch)) "aria-labelledby"
          = none ∧
      ∀ k, k ≠ "aria-label" → k ≠ "aria-labelledby" →
        getAttr (replaceAriaLabelledByWithAriaLabel doc (.elem t a ch)) k
            = getAttr (.elem t a ch) k) ∧
    (getElementById doc (some idv) = none →
      replaceAriaLabelledByWithAriaLabel doc (.elem t a ch) = .elem t a ch) := by
  constructor
  · intro ref href
    have hrw : replaceAriaLabelledByWithAriaLabel doc (.elem t a ch)
        = removeAttr (setAttr (.elem t a ch) "aria-label" (jsTrim (textContent ref)))
            "aria-labelledby" := by
      simp [replaceAriaLabelledByWithAriaLabel, hid, href]
    have hset : setAttr (.elem t a ch) "aria-label" (jsTrim (textContent ref))
        = .elem t (setAttrList a "aria-label" (jsTrim (textContent ref))) ch := rfl
    rw [hrw, hset]
    refine ⟨?_, ?_, ?_⟩
    · rw [getAttr_removeAttr_ne _ _ _ _ _ (by decide)]
      exact getAttr_setAttr_self t a ch _ _
    · exact getAttr_removeAttr_self _ _ _ _
    · intro k hk1 hk2
      rw [getAttr_removeAttr_ne _ _ _ _ _ hk2]
      exact getAttr_setAttr_ne t a ch _ _ _ hk1
  · intro href
    simp [replaceAriaLabelledByWithAriaLabel, hid, href]

/-- Witness for C6, resolving branch: a modal-style element with
`aria-labelledby="t"` where `t` has text `"  T  "` ends with
`aria-label="T"`, no `aria-labelledby`, and its `class` attribute intact. -/
theorem replaceAriaLabelledByWithAriaLabel_spec_w :
    getAttr (replaceAriaLabelledByWithAriaLabel
        (.elem "BODY" [] [.elem "SPAN" [("id", "t")] [.text "  T  "]])
        (.elem "DIV" [("class", "modal"), ("aria-labelledby", "t")] [])) "aria-label"
      = some "T" ∧
    getAttr (replaceAriaLabelledByWithAriaLabel
        (.elem "BODY" [] [.elem "SPAN" [("id", "t")] [.text "  T  "]])
        (.elem "DIV" [("class", "modal"), ("aria-labelledby", "t")] [])) "aria-labelledby"
      = none ∧
    getAttr (replaceAriaLabelledByWithAriaLabel
        (.elem "BODY" [] [.elem "SPAN" [("id", "t")] [.text "  T  "]])
        (.elem "DIV" [("class", "modal"), ("aria-labelledby", "t")] [])) "class"
      = some "modal" := by
  have h := replaceAriaLabelledByWithAriaLabel_spec
    (.elem "BODY" [] [.elem "SPAN" [("id", "t")] [.text "  T  "]])
    "DIV" [("class", "modal"), ("aria-labelledby", "t")] [] "t" rfl
  obtain ⟨h1, h2, h3⟩ := h.1 (.elem "SPAN" [("id", "t")] [.text "  T  "]) rfl
  refine ⟨?_, h2, ?_⟩
  · rw [h1]; decide
  · rw [h3 "class" (by decide) (by decide)]; decide

/-! ## Claims about the button promoter -/

/-- C7: one run of the keydown listener registered by `createA11yButton`
activates exactly when the event's key name is `"Enter"`, `" "` or
`"Spacebar"`, or — when no key name is present — its legacy `keyCode` is 13
or 32; in that case it prevents the default and triggers exactly one
activation, a native click when the capability exists and otherwise one
bubbling synthetic click; on any other key it does nothing. -/
theorem a11yKeydownHandler_spec (b : Bool) (e : KeyEvent) :
    a11yKeydownHandler b e =
      if e.key = some "Enter" ∨ e.key = some " " ∨ e.key = some "Spacebar" ∨
          (e.key = none ∧ (e.keyCode = some 13 ∨ e.keyCode = some 32)) then
        { preventedDefault := true
          activations := [if b then Activation.nativeClick else Activation.syntheticClick] }
      else { preventedDefault := false, activations := [] } := by
  obtain ⟨key, code⟩ := e
  cases key with
  | some s =>
      by_cases hE : s = "Enter"
      · simp [a11yKeydownHandler, isActivationKey, eventKey, hE]
      · by_cases hS : s = " "
        · simp [a11yKeydownHandler, isActivationKey, eventKey, hS]
        · by_cases hB : s = "Spacebar"
          · simp [a11yKeydownHandler, isActivationKey, eventKey, hB]
          · simp [a11yKeydownHandler, isActivationKey, eventKey, hE, hS, hB]
  | none =>
      cases code with
      | none => simp [a11yKeydownHandler, isActivationKey, eventKey]
      | some n =>
          by_cases h13 : n = 13
          · simp [a11yKeydownHandler, isActivationKey, eventKey, h13]
          · by_cases h32 : n = 32
            · simp [a11yKeydownHandler, isActivationKey, eventKey, h32]
            · simp [a11yKeydownHandler, isActivationKey, eventKey, h13, h32]

/-- C8: `createA11yButton` on a native button changes nothing and registers
no handler; on any other element it sets `tabindex="0"` unconditionally and
sets `role` to the configured role only when no (non-empty) role is already
present — an existing role is never overridden. -/
theorem createA11yButton_spec (t : String) (a : List (String × String))
    (ch : List Node) (n : Nat) (r : String) :
    (t = "BUTTON" → createA11yButton ⟨.elem t a ch, n⟩ r = ⟨.elem t a ch, n⟩) ∧
    (t ≠ "BUTTON" →
      getAttr (createA11yButton ⟨.elem t a ch, n⟩ r).node "tabindex" = some "0" ∧
      (truthy (getAttr (.elem t a ch) "role") = true →
        getAttr (createA11yButton ⟨.elem t a ch, n⟩ r).node "role"
          = getAttr (.elem t a ch) "role") ∧
      (truthy (getAttr (.elem t a ch) "role") = false →
        getAttr (createA11yButton ⟨.elem t a ch, n⟩ r).node "role" = some r)) := by
  constructor
  · intro hb
    simp [createA11yButton, tagName, hb]
  · intro hb
    have hbt : (tagName (Node.elem t a ch) == "BUTTON") = false := by
      simp [tagName, hb]
    cases htr : truthy (getAttr (Node.elem t a ch) "role") with
    | true =>
        have hnode : (createA11yButton ⟨.elem t a ch, n⟩ r).node
            = setAttr (.elem t a ch) "tabindex" "0" := by
          simp [createA11yButton, hbt, htr]
        refine ⟨?_, ?_, ?_⟩
        · rw [hnode]; exact getAttr_setAttr_self _ _ _ _ _
        · intro _
          rw [hnode]; exact getAttr_setAttr_ne _ _ _ _ _ _ (by decide)
        · intro hf; exact Bool.noConfusion hf
    | false =>
        have hnode : (createA11yButton ⟨.elem t a ch, n⟩ r).node
            = setAttr (.elem t (setAttrList a "role" r) ch) "tabindex" "0" := by
          simp [createA11yButton, hbt, htr, setAttr]
        refine ⟨?_, ?_, ?_⟩
        · rw [hnode]; exact getAttr_setAttr_self _ _ _ _ _
        · intro hf; exact Bool.noConfusion hf
        · intro _
          rw [hnode, getAttr_setAttr_ne _ _ _ _ _ _ (by decide)]
          simp [getAttr, lookup_setAttrList_self]

/-- Witness for C8: a `<div role="link">` keeps `role="link"` and gains
`tabindex="0"`; a bare `<div>` gets `role="button"`; a `<button>` is
untouched. -/
theorem createA11yButton_spec_w :
    createA11yButton ⟨.elem "BUTTON" [] [], 0⟩ "button" = ⟨.elem "BUTTON" [] [], 0⟩ ∧
    getAttr (createA11yButton ⟨.elem "DIV" [("role", "link")] [], 0⟩ "button").node "role"
      = some "link" ∧
    getAttr (createA11yButton ⟨.elem "DIV" [("role", "link")] [], 0⟩ "button").node "tabindex"
      = some "0" ∧
    getAttr (createA11yButton ⟨.elem "DIV" [] [], 0⟩ "button").node "role" = some "button" := by
  refine ⟨(createA11yButton_spec "BUTTON" [] [] 0 "button").1 rfl, ?_, ?_, ?_⟩
  · have h := ((createA11yButton_spec "DIV" [("role", "link")] [] 0 "button").2
      (by decide)).2.1 (by decide)
    rw [h]; decide
  · exact ((createA11yButton_spec "DIV" [("role", "link")] [] 0 "button").2 (by decide)).1
  · exact ((createA11yButton_spec "DIV" [] [] 0 "button").2 (by decide)).2.2 (by decide)

/-- C9: `addIdToElement` is idempotent on the identifier: an element that
already has a non-empty id is left unchanged; a second call is a no-op; and
after any call (with the host's non-empty fresh UUID) the element has a
non-empty id. -/
theorem addIdToElement_idempotent (t : String) (a : List (String × String))
    (ch : List Node) (f1 f2 : String) (h1 : f1 ≠ "") :
    (truthy (getAttr (.elem t a ch) "id") = true →
      addIdToElement (.elem t a ch) f1 = .elem t a ch) ∧
    addIdToElement (addIdToElement (.elem t a ch) f1) f2
      = addIdToElement (.elem t a ch) f1 ∧
    truthy (getAttr (addIdToElement (.elem t a ch) f1) "id") = true := by
  cases h : truthy (getAttr (Node.elem t a ch) "id") with
  | true =>
      refine ⟨fun _ => ?_, ?_, ?_⟩ <;> simp [addIdToElement, h]
  | false =>
      have hf : getAttr (setAttr (.elem t a ch) "id" f1) "id" = some f1 :=
        getAttr_setAttr_self t a ch "id" f1
      have ht : truthy (getAttr (setAttr (.elem t a ch) "id" f1) "id") = true := by
        rw [hf]; simp [truthy, h1]
      refine ⟨fun hc => Bool.noConfusion hc, ?_, ?_⟩
      · simp [addIdToElement, h, ht]
      · simp [addIdToElement, h, ht]

/-- Witness for C9: a fresh element receives id `"u1"` and a second call with
a different fresh id `"u2"` changes nothing. -/
theorem addIdToElement_idempotent_w :
    addIdToElement (addIdToElement (.elem "DIV" [] []) "u1") "u2"
      = addIdToElement (.elem "DIV" [] []) "u1" ∧
    truthy (getAttr (addIdToElement (.elem "DIV" [] []) "u1") "id") = true :=
  ⟨(addIdToElement_idempotent "DIV" [] [] "u1" "u2" (by decide)).2.1,
   (addIdToElement_idempotent "DIV" [] [] "u1" "u2" (by decide)).2.2⟩

/-- `setAttr` does not change the tag name. -/
theorem tagName_setAttr (el : Node) (k v : String) :
    tagName (setAttr el k v) = tagName el := by
  cases el <;> rfl

/-- C10: `createA11yButton` is not idempotent with respect to handler
registration: on a non-button element each call registers one more keydown
listener (the second call skips only the role assignment, because after the
first call a non-empty role is always present), so after two calls one
Enter keypress triggers two activations. -/
theorem createA11yButton_two_calls (t : String) (a : List (String × String))
    (ch : List Node) (b : Bool) (h : t ≠ "BUTTON") :
    (createA11yButton (createA11yButton ⟨.elem t a ch, 0⟩ "button") "button").keydownHandlerCount
        = 2 ∧
    (createA11yButton (createA11yButton ⟨.elem t a ch, 0⟩ "button") "button").node
        = setAttr (createA11yButton ⟨.elem t a ch, 0⟩ "button").node "tabindex" "0" ∧
    totalActivations (dispatchKeydown
        (createA11yButton (createA11yButton ⟨.elem t a ch, 0⟩ "button") "button") b
        ⟨some "Enter", none⟩) = 2 := by
  have hbt : (tagName (Node.elem t a ch) == "BUTTON") = false := by
    simp [tagName, h]
  -- after the first call the element always carries a non-empty role
  have hrole1 : truthy (getAttr (createA11yButton ⟨.elem t a ch, 0⟩ "button").node "role")
      = true := by
    cases htr : truthy (getAttr (Node.elem t a ch) "role") with
    | true =>
        have hnode : (createA11yButton ⟨.elem t a ch, 0⟩ "button").node
            = setAttr (.elem t a ch) "tabindex" "0" := by
          simp [createA11yButton, hbt, htr]
        rw [hnode, getAttr_setAttr_ne _ _ _ _ _ _ (by decide)]
        exact htr
    | false =>
        have hnode : (createA11yButton ⟨.elem t a ch, 0⟩ "button").node
            = setAttr (.elem t (setAttrList a "role" "button") ch) "tabindex" "0" := by
          simp [createA11yButton, hbt, htr, setAttr]
        rw [hnode, getAttr_setAttr_ne _ _ _ _ _ _ (by decide)]
        simp [getAttr, lookup_setAttrList_self, truthy]
  have htag1 : tagName (createA11yButton ⟨.elem t a ch, 0⟩ "button").node = t := by
    cases htr : truthy (getAttr (Node.elem t a ch) "role") <;>
      simp [createA11yButton, hbt, htr, tagName_setAttr, tagName, setAttr, h]
  have hbt1 : (tagName (createA11yButton ⟨.elem t a ch, 0⟩ "button").node == "BUTTON")
      = false := by
    rw [htag1]; simp [h]
  have hcount1 : (createA11yButton ⟨.elem t a ch, 0⟩ "button").keydownHandlerCount = 1 := by
    simp [createA11yButton, hbt]
  have hgen : ∀ st : ElementState, (tagName st.node == "BUTTON") = false →
      truthy (getAttr st.node "role") = true →
      createA11yButton st "button"
        = ⟨setAttr st.node "tabindex" "0", st.keydownHandlerCount + 1⟩ := by
    intro st hb2 hr2
    simp [createA11yButton, hb2, hr2]
  have hstep2 : createA11yButton (createA11yButton ⟨.elem t a ch, 0⟩ "button") "button"
      = ⟨setAttr (createA11yButton ⟨.elem t a ch, 0⟩ "button").node "tabindex" "0",
         (createA11yButton ⟨.elem t a ch, 0⟩ "button").keydownHandlerCount + 1⟩ :=
    hgen _ hbt1 hrole1
  refine ⟨by rw [hstep2]; simp [hcount1], by rw [hstep2], ?_⟩
  rw [hstep2]
  have hact : isActivationKey ⟨some "Enter", none⟩ = true := by decide
  simp [dispatchKeydown, totalActivations, hcount1, a11yKeydownHandler, hact,
    List.replicate]

/-! ## Claim about the modal attributor -/

/-- Truthiness of an optional attribute value unfolded. -/
theorem truthy_iff (o : Option String) :
    truthy o = true ↔ ∃ s, o = some s ∧ s ≠ "" := by
  cases o with
  | none => simp [truthy]
  | some s => simp [truthy]

/-- The labelled-by normalizer never touches attributes other than
`aria-label` and `aria-labelledby`. -/
theorem getAttr_replaceAria_other (doc : Node) (t : String)
    (a : List (String × String)) (ch : List Node) (k : String)
    (h1 : k ≠ "aria-label") (h2 : k ≠ "aria-labelledby") :
    getAttr (replaceAriaLabelledByWithAriaLabel doc (.elem t a ch)) k
      = getAttr (.elem t a ch) k := by
  cases href : getElementById doc (getAttr (.elem t a ch) "aria-labelledby") with
  | none => simp [replaceAriaLabelledByWithAriaLabel, href]
  | some ref =>
      have : replaceAriaLabelledByWithAriaLabel doc (.elem t a ch)
          = removeAttr (.elem t (setAttrList a "aria-label" (jsTrim (textContent ref))) ch)
              "aria-labelledby" := by
        simp [replaceAriaLabelledByWithAriaLabel, href, setAttr]
      rw [this, getAttr_removeAttr_ne _ _ _ _ _ h2]
      exact getAttr_setAttr_ne t a ch _ _ _ h1

/-- The headline search only looks at the children, so it ignores the
container's tag and attributes. -/
theorem getFirstHeadline_congr (t t' : String) (a a' : List (String × String))
    (ch : List Node) :
    getFirstHeadline (.elem t a ch) = getFirstHeadline (.elem t' a' ch) := rfl

/-- C1 counterexample: a modal that already carries the non-empty
`aria-label="X"` together with `aria-labelledby="t"`, where id `t` resolves
to an element with text `" T "`: after `setModalA11yAttributes` the
`aria-label` is `"T"`, not the original `"X"` — the normalizer overwrites an
existing explicit label, so the claim's "an element that already carries a
non-empty aria-label keeps that aria-label value unchanged" is false. -/
theorem setModalA11yAttributes_overwrites_label_cex :
    getAttr (.elem "DIV" [("aria-label", "X"), ("aria-labelledby", "t")] [])
        "aria-label" = some "X" ∧
    getAttr (setModalA11yAttributes
        (.elem "BODY" [] [.elem "SPAN" [("id", "t")] [.text " T "]])
        (.elem "DIV" [("aria-label", "X"), ("aria-labelledby", "t")] []))
        "aria-label" = some "T" := by
  decide

/-- C1 (amended): after `setModalA11yAttributes` the element has
`aria-modal="true"` and a role — `role="dialog"` is set only when no
non-empty role was present, an existing non-empty role is never changed; the
discovered heading becomes the `aria-label` only when neither `aria-label`
nor `aria-labelledby` was (non-empty) present; a non-empty `aria-labelledby`
that resolves is converted to a direct `aria-label` carrying the referenced
element's trimmed text, overwriting any existing `aria-label`; and an
existing non-empty `aria-label` is kept only when the `aria-labelledby`
reference (if any) does not resolve. -/
theorem setModalA11yAttributes_amended (doc : Node) (t : String)
    (a : List (String × String)) (ch : List Node) :
    getAttr (setModalA11yAttributes doc (.elem t a ch)) "aria-modal" = some "true" ∧
    (truthy (getAttr (.elem t a ch) "role") = true →
      getAttr (setModalA11yAttributes doc (.elem t a ch)) "role"
        = getAttr (.elem t a ch) "role") ∧
    (truthy (getAttr (.elem t a ch) "role") = false →
      getAttr (setModalA11yAttributes doc (.elem t a ch)) "role" = some "dialog") ∧
    (truthy (getFirstHeadline (.elem t a ch)) = true →
      truthy (getAttr (.elem t a ch) "aria-label") = false →
      truthy (getAttr (.elem t a ch) "aria-labelledby") = false →
      getAttr (setModalA11yAttributes doc (.elem t a ch)) "aria-label"
        = getFirstHeadline (.elem t a ch)) ∧
    (∀ idv ref, getAttr (.elem t a ch) "aria-labelledby" = some idv →
      getElementById doc (some idv) = some ref →
      getAttr (setModalA11yAttributes doc (.elem t a ch)) "aria-label"
          = some (jsTrim (textContent ref)) ∧
      getAttr (setModalA11yAttributes doc (.elem t a ch)) "aria-labelledby" = none) ∧
    (truthy (getAttr (.elem t a ch) "aria-label") = true →
      getElementById doc (getAttr (.elem t a ch) "aria-labelledby") = none →
      getAttr (setModalA11yAttributes doc (.elem t a ch)) "aria-label"
        = getAttr (.elem t a ch) "aria-label") := by
  obtain ⟨a2, hstep, hlab2, hlb2, hrole2t, hrole2f, hmodal2, hhead2⟩ :
      ∃ a2 : List (String × String),
        setModalA11yAttributes doc (.elem t a ch)
          = (if truthy (getFirstHeadline (.elem t a2 ch)) &&
                !truthy (getAttr (.elem t a2 ch) "aria-label") &&
                !truthy (getAttr (.elem t a2 ch) "aria-labelledby") then
              setAttr (.elem t a2 ch) "aria-label"
                ((getFirstHeadline (.elem t a2 ch)).getD "")
            else if truthy (getAttr (.elem t a2 ch) "aria-labelledby") then
              replaceAriaLabelledByWithAriaLabel doc (.elem t a2 ch)
            else .elem t a2 ch) ∧
        getAttr (.elem t a2 ch) "aria-label" = getAttr (.elem t a ch) "aria-label" ∧
        getAttr (.elem t a2 ch) "aria-labelledby"
          = getAttr (.elem t a ch) "aria-labelledby" ∧
        (truthy (getAttr (.elem t a ch) "role") = true →
          getAttr (.elem t a2 ch) "role" = getAttr (.elem t a ch) "role") ∧
        (truthy (getAttr (.elem t a ch) "role") = false →
          getAttr (.elem t a2 ch) "role" = some "dialog") ∧
        getAttr (.elem t a2 ch) "aria-modal" = some "true" ∧
        getFirstHeadline (.elem t a2 ch) = getFirstHeadline (.elem t a ch) := by
    cases hrole : truthy (getAttr (Node.elem t a ch) "role") with
    | true =>
        refine ⟨setAttrList a "aria-modal" "true", ?_, ?_, ?_, ?_, ?_, ?_, ?_⟩
        · simp [setModalA11yAttributes, hrole, setAttr]
        · exact getAttr_setAttr_ne t a ch _ _ _ (by decide)
        · exact getAttr_setAttr_ne t a ch _ _ _ (by decide)
        · intro _; exact getAttr_setAttr_ne t a ch _ _ _ (by decide)
        · intro hf; exact Bool.noConfusion hf
        · exact getAttr_setAttr_self t a ch _ _
        · exact getFirstHeadline_congr t t _ a _
    | false =>
        refine ⟨setAttrList (setAttrList a "role" "dialog") "aria-modal" "true",
          ?_, ?_, ?_, ?_, ?_, ?_, ?_⟩
        · simp [setModalA11yAttributes, hrole, setAttr]
        · exact (getAttr_setAttr_ne t (setAttrList a "role" "dialog") ch _ _ _
            (by decide)).trans (getAttr_setAttr_ne t a ch _ _ _ (by decide))
        · exact (getAttr_setAttr_ne t (setAttrList a "role" "dialog") ch _ _ _
            (by decide)).trans (getAttr_setAttr_ne t a ch _ _ _ (by decide))
        · intro hf; exact Bool.noConfusion hf
        · intro _
          exact (getAttr_setAttr_ne t (setAttrList a "role" "dialog") ch _ _ _
            (by decide)).trans (getAttr_setAttr_self t a ch _ _)
        · exact getAttr_setAttr_self t (setAttrList a "role" "dialog") ch _ _
        · exact getFirstHeadline_congr t t _ a _
  refine ⟨?_, ?_, ?_, ?_, ?_, ?_⟩
  · -- aria-modal is always "true"
    rw [hstep]
    split
    · rw [getAttr_setAttr_ne t a2 ch _ _ _ (by decide)]; exact hmodal2
    split
    · rw [getAttr_replaceAria_other doc t a2 ch _ (by decide) (by decide)]; exact hmodal2
    · exact hmodal2
  · -- an existing non-empty role is kept
    intro hr
    rw [hstep]
    split
    · rw [getAttr_setAttr_ne t a2 ch _ _ _ (by decide)]; exact hrole2t hr
    split
    · rw [getAttr_replaceAria_other doc t a2 ch _ (by decide) (by decide)]
      exact hrole2t hr
    · exact hrole2t hr
  · -- otherwise role becomes "dialog"
    intro hr
    rw [hstep]
    split
    · rw [getAttr_setAttr_ne t a2 ch _ _ _ (by decide)]; exact hrole2f hr
    split
    · rw [getAttr_replaceAria_other doc t a2 ch _ (by decide) (by decide)]
      exact hrole2f hr
    · exact hrole2f hr
  · -- a discovered heading labels an element with no label attributes
    intro hh hl hlb
    have hcond : (truthy (getFirstHeadline (.elem t a2 ch)) &&
        !truthy (getAttr (.elem t a2 ch) "aria-label") &&
        !truthy (getAttr (.elem t a2 ch) "aria-labelledby")) = true := by
      rw [hhead2, hlab2, hlb2, hh, hl, hlb]; rfl
    rw [hstep, if_pos hcond, getAttr_setAttr_self t a2 ch _ _, hhead2]
    obtain ⟨s, hs, _⟩ := (truthy_iff _).mp hh
    rw [hs]; rfl
  · -- a resolvable aria-labelledby becomes a direct aria-label
    intro idv ref hid href
    have hidne : idv ≠ "" := by
      intro he
      rw [he] at href
      simp [getElementById] at href
    have hlbt : truthy (getAttr (Node.elem t a ch) "aria-labelledby") = true := by
      rw [hid]; simp [truthy, hidne]
    have hcond : (truthy (getFirstHeadline (.elem t a2 ch)) &&
        !truthy (getAttr (.elem t a2 ch) "aria-label") &&
        !truthy (getAttr (.elem t a2 ch) "aria-labelledby")) = false := by
      rw [hlb2, hlbt]
      simp
    have hresult : setModalA11yAttributes doc (.elem t a ch)
        = removeAttr (.elem t (setAttrList a2 "aria-label" (jsTrim (textContent ref))) ch)
            "aria-labelledby" := by
      rw [hstep, if_neg (by simp [hcond]), if_pos (by rw [hlb2]; exact hlbt)]
      simp [replaceAriaLabelledByWithAriaLabel, hlb2, hid, href, setAttr]
    constructor
    · rw [hresult, getAttr_removeAttr_ne _ _ _ _ _ (by decide)]
      exact lookup_setAttrList_self a2 _ _
    · rw [hresult]
      exact getAttr_removeAttr_self _ _ _ _
  · -- an explicit label is kept when no reference resolves
    intro hl hnres
    have hcond : (truthy (getFirstHeadline (.elem t a2 ch)) &&
        !truthy (getAttr (.elem t a2 ch) "aria-label") &&
        !truthy (getAttr (.elem t a2 ch) "aria-labelledby")) = false := by
      rw [hlab2, hl]
      simp
    rw [hstep, if_neg (by simp [hcond])]
    split
    · have : replaceAriaLabelledByWithAriaLabel doc (.elem t a2 ch) = .elem t a2 ch := by
        simp [replaceAriaLabelledByWithAriaLabel, hlb2, hnres]
      rw [this]; exact hlab2
    · exact hlab2

/-- Witness for C1 (amended): a modal containing `<h2> Settings </h2>` and no
label attributes ends with `aria-modal="true"`, `role="dialog"` and
`aria-label="Settings"`. -/
theorem setModalA11yAttributes_amended_w :
    getAttr (setModalA11yAttributes (.elem "BODY" [] [])
        (.elem "DIV" [] [.elem "H2" [] [.text " Settings "]])) "aria-modal"
      = some "true" ∧
    getAttr (setModalA11yAttributes (.elem "BODY" [] [])
        (.elem "DIV" [] [.elem "H2" [] [.text " Settings "]])) "role"
      = some "dialog" ∧
    getAttr (setModalA11yAttributes (.elem "BODY" [] [])
        (.elem "DIV" [] [.elem "H2" [] [.text " Settings "]])) "aria-label"
      = some "Settings" := by
  have h := setModalA11yAttributes_amended (.elem "BODY" [] []) "DIV" []
    [.elem "H2" [] [.text " Settings "]]
  refine ⟨h.1, h.2.2.1 (by decide), ?_⟩
  rw [h.2.2.2.1 (by decide) (by decide) (by decide)]
  decide

/-- Witness for C10: two promotions of a bare `<div>` then one Enter
keypress yield two activations. -/
theorem createA11yButton_two_calls_w :
    (createA11yButton (createA11yButton ⟨.elem "DIV" [] [], 0⟩ "button") "button").keydownHandlerCount
        = 2 ∧
    totalActivations (dispatchKeydown
        (createA11yButton (createA11yButton ⟨.elem "DIV" [] [], 0⟩ "button") "button") true
        ⟨some "Enter", none⟩) = 2 :=
  ⟨(createA11yButton_two_calls "DIV" [] [] true (by decide)).1,
   (createA11yButton_two_calls "DIV" [] [] true (by decide)).2.2⟩

end A11y
